import Mathlib

/-!
Verification development for the AsciiYou GPU rendering pipeline.

Part 1 embeds the compute shader `src/shaders/compute.wgsl`.
Part 2 embeds the resource-management layer `src/scripts/webgpu.ts`
(the canonical, most-evolved copy of the module; the repository also
contains earlier evolutionary snapshots of the same module).

Modelling conventions:
* WGSL `f32` arithmetic is modelled over exact rationals `ℚ`.  Every
  concrete input used in a counterexample below evaluates to values that
  are exactly representable in `f32` (0, 1/2, 1, 34, 69, …), so the
  rational model and the `f32` execution agree at those points.
* `sqrt` has no exact rational counterpart, so the shader embedding is
  parametrised by a square-root function `sqrtA : ℚ → ℚ`; every theorem
  that depends on the edge magnitude only uses the fact `sqrtA 0 = 0`,
  which holds for the real square root.
* GPU objects (buffers, textures) are identified by natural-number ids
  handed out by a monotone counter, as a model of object identity.
  Device calls that matter to the verified claims (buffer/texture
  allocation, external-image copies, uniform writes, bind-group
  installation, buffer destruction) are recorded in an event trace.
  Sampler and texture-view creation have no bearing on any claim and are
  elided from the trace.
-/

namespace AsciiYou

/-! ## Part 1: the compute shader (src/shaders/compute.wgsl) -/

/-- An rgb color sample, each channel a rational (WGSL `vec3<f32>`). -/
abbrev Rgb : Type := ℚ × ℚ × ℚ

/-- WGSL `clamp(e, lo, hi) = min(max(e, lo), hi)`. -/
def wgslClamp (e lo hi : ℚ) : ℚ := min (max e lo) hi

/-- WGSL `u32(x)`: conversion from `f32` to `u32`, truncating toward zero
and saturating at the bounds of `u32` (compute.wgsl uses it at lines 17,
61 and 62). -/
def u32cast (q : ℚ) : ℕ := if q ≤ 0 then 0 else min (Int.toNat ⌊q⌋) (2 ^ 32 - 1)

/-- The `luma` helper of compute.wgsl (lines 11-13):
`dot(c, vec3(0.299, 0.587, 0.114))`. -/
def luma (c : Rgb) : ℚ := (299 / 1000) * c.1 + (587 / 1000) * c.2.1 + (114 / 1000) * c.2.2

/-- The `Uniforms` struct of compute.wgsl (lines 1-4).  The last five
fields are consumed only by the render shader. -/
structure Uniforms where
  outW : ℚ
  outH : ℚ
  edgeBias : ℚ
  contrast : ℚ
  invert : ℚ
  cols : ℚ
  rows : ℚ
  cellPx : ℚ
  atlasW : ℚ
  atlasH : ℚ
  deriving Repr, DecidableEq

/-- Lines 44-59 of compute.wgsl: contrast adjustment, optional invert,
and the mapping of the center luminance `lum0` and edge magnitude `edge`
to the stored glyph index.  Note the hard-coded constant `69.0`
(the shader comments it as "70 chars in RAMP_DENSE") and the `u32`
conversion, which truncates. -/
def glyphValue (U : Uniforms) (lum0 edge : ℚ) : ℕ :=
  let lum1 := if U.contrast ≠ 1 then wgslClamp ((lum0 - 1 / 2) * U.contrast + 1 / 2) 0 1 else lum0
  let lum2 := if U.invert > 1 / 2 then 1 - lum1 else lum1
  let base := lum2 * 69
  let bias := edge * U.edgeBias * 69
  u32cast (wgslClamp (base + bias) 0 69)

/-- Line 31 of compute.wgsl: the clamped sampling coordinate for the 3×3
neighborhood, offset `(i, j)` texels from the cell-center uv. -/
def sampleCoord (U : Uniforms) (texW texH : ℚ) (gid : ℕ × ℕ) (i j : ℤ) : ℚ × ℚ :=
  (wgslClamp (((gid.1 : ℚ) + 1 / 2) / U.outW + (i : ℚ) / texW) 0 1,
   wgslClamp (((gid.2 : ℚ) + 1 / 2) / U.outH + (j : ℚ) / texH) 0 1)

/-- The observable effects of one compute-shader invocation: the list of
texture-sample coordinates it issues (loop order of lines 29-34) and the
write it performs on the glyph index buffer (`none` for a no-op). -/
structure ShaderEffect where
  samples : List (ℚ × ℚ)
  write : Option (ℕ × ℕ)
  deriving Repr, DecidableEq

/-- The `main` entry point of compute.wgsl, for one invocation with
global id `gid`.  `tex` is the camera texture abstracted as a function
from sampling coordinates to colors, `texW × texH` its dimensions, and
`sqrtA` stands for `f32` `sqrt`. -/
def computeMain (sqrtA : ℚ → ℚ) (U : Uniforms) (texW texH : ℚ) (tex : ℚ × ℚ → Rgb)
    (gid : ℕ × ℕ) : ShaderEffect :=
  if u32cast U.outW ≤ gid.1 ∨ u32cast U.outH ≤ gid.2 then ⟨[], none⟩
  else
    let L : ℤ → ℤ → ℚ := fun j i => luma (tex (sampleCoord U texW texH gid i j))
    let gx := L (-1) (-1) + 2 * L 0 (-1) + L 1 (-1) - L (-1) 1 - 2 * L 0 1 - L 1 1
    let gy := L (-1) (-1) + 2 * L (-1) 0 + L (-1) 1 - L 1 (-1) - 2 * L 1 0 - L 1 1
    let edge := sqrtA (gx * gx + gy * gy)
    let cellIdx := gid.2 * u32cast U.outW + gid.1
    ⟨[sampleCoord U texW texH gid (-1) (-1), sampleCoord U texW texH gid 0 (-1),
      sampleCoord U texW texH gid 1 (-1),
      sampleCoord U texW texH gid (-1) 0, sampleCoord U texW texH gid 0 0,
      sampleCoord U texW texH gid 1 0,
      sampleCoord U texW texH gid (-1) 1, sampleCoord U texW texH gid 0 1,
      sampleCoord U texW texH gid 1 1],
     some (cellIdx, glyphValue U (L 0 0) edge)⟩

/-- The glyph-index formula exactly as the spec states it (§4.4 step 6
combined with steps 4-5): always-clamped contrast adjustment, optional
invert, `base = lum * (ramp_length - 1)`,
`bias = edge * edge_bias * (ramp_length - 1)`, and
`clamp(round(base + bias), 0, ramp_length - 1)`. -/
def specGlyphValue (contrast edgeBias invert : ℚ) (rampLen : ℕ) (lum0 edge : ℚ) : ℤ :=
  let lum1 := min (max ((lum0 - 1 / 2) * contrast + 1 / 2) 0) 1
  let lum2 := if invert > 1 / 2 then 1 - lum1 else lum1
  let base := lum2 * ((rampLen : ℚ) - 1)
  let bias := edge * edgeBias * ((rampLen : ℚ) - 1)
  min (max (round (base + bias)) 0) ((rampLen : ℤ) - 1)

/-- The amended glyph-index formula: same luminance pipeline, but the
ramp scale is the shader's hard-coded `69` and the final conversion
truncates (floor of the clamped value) instead of rounding. -/
def specGlyphValueTrunc (contrast edgeBias invert : ℚ) (lum0 edge : ℚ) : ℕ :=
  let lum1 := min (max ((lum0 - 1 / 2) * contrast + 1 / 2) 0) 1
  let lum2 := if invert > 1 / 2 then 1 - lum1 else lum1
  Int.toNat ⌊min (max (lum2 * 69 + edge * edgeBias * 69) 0) 69⌋

/-- Uniform values for the spec's baseline scenario:
`grid = 4×2, contrast = 1.0, edge_bias = 0.0, invert = false`. -/
def scenarioU : Uniforms := ⟨4, 2, 0, 1, 0, 16, 5, 32, 512, 160⟩

/-- A uniform mid-gray camera source. -/
def midGray : ℚ × ℚ → Rgb := fun _ => (1 / 2, 1 / 2, 1 / 2)

/-- A uniform pure-white camera source. -/
def whiteTex : ℚ × ℚ → Rgb := fun _ => (1, 1, 1)

/-- A stand-in square root used to instantiate counterexamples and
witnesses; it is only ever applied at the argument `0`, where the real
square root is also `0`. -/
def sqrtZero : ℚ → ℚ := fun _ => 0

lemma u32cast_of_nonneg_le (q : ℚ) (h0 : 0 ≤ q) (h69 : q ≤ 69) :
    u32cast q = Int.toNat ⌊q⌋ := by
  unfold u32cast
  have hfloor : ⌊q⌋ ≤ 69 := by
    have := Int.floor_le_floor h69
    simpa using this
  split
  · rename_i hle
    have : q = 0 := le_antisymm hle h0
    simp [this]
  · have : Int.toNat ⌊q⌋ ≤ 69 := by
      rw [Int.toNat_le]
      exact le_trans hfloor (by norm_num)
    omega

lemma glyphValue_le (U : Uniforms) (lum0 edge : ℚ) : glyphValue U lum0 edge ≤ 69 := by
  unfold glyphValue
  have h0 : (0 : ℚ) ≤ wgslClamp ((if U.invert > 1 / 2 then
      1 - (if U.contrast ≠ 1 then wgslClamp ((lum0 - 1 / 2) * U.contrast + 1 / 2) 0 1 else lum0)
      else (if U.contrast ≠ 1 then wgslClamp ((lum0 - 1 / 2) * U.contrast + 1 / 2) 0 1 else lum0)) * 69
      + edge * U.edgeBias * 69) 0 69 := by
    unfold wgslClamp
    simp only [le_min_iff]
    constructor
    · exact le_max_right _ _
    · norm_num
  have h69 : wgslClamp ((if U.invert > 1 / 2 then
      1 - (if U.contrast ≠ 1 then wgslClamp ((lum0 - 1 / 2) * U.contrast + 1 / 2) 0 1 else lum0)
      else (if U.contrast ≠ 1 then wgslClamp ((lum0 - 1 / 2) * U.contrast + 1 / 2) 0 1 else lum0)) * 69
      + edge * U.edgeBias * 69) 0 69 ≤ 69 := min_le_right _ _
  rw [u32cast_of_nonneg_le _ h0 h69]
  rw [Int.toNat_le]
  calc (⌊_⌋ : ℤ) ≤ ⌊(69 : ℚ)⌋ := Int.floor_le_floor h69
  _ = 69 := by norm_num

/-- The dense character ramp (`RAMP_DENSE` of the constants module; the
same 68-character literal appears inline in src/webgpu.ts line 82 and
src/index.js line 39).  Written with hex escapes for the quote, backtick
and brace characters. -/
def RAMP_DENSE : String :=
  "\x20.\x27\x60^\",:;Il!i~+_-?][\x7d\x7b1)(|\\/tfjrxnuvczXYUJCLQ0OZmwqpdbkhao*#MW&8%B@$"

/-- The block character ramp (`RAMP_BLOCKS`; src/webgpu.ts line 83 and
src/index.js line 40): space, light/medium/dark shade, full block. -/
def RAMP_BLOCKS : String := "\x20░▒▓█"

/-- Helper equalities about the ramp lengths, established once. -/
lemma ramp_lengths : RAMP_DENSE.length = 68 ∧ RAMP_BLOCKS.length = 5 := by decide

lemma trunc_bridge (x : ℚ) : u32cast (wgslClamp x 0 69) = Int.toNat ⌊min (max x 0) 69⌋ :=
  u32cast_of_nonneg_le _ (le_min (le_max_right _ _) (by norm_num)) (min_le_right _ _)

/-- On a constant-color source every 3×3 sample is equal, so both Sobel
gradients vanish and the invocation writes the glyph value of the
constant's luminance with edge magnitude zero. -/
lemma computeMain_const (sqrtA : ℚ → ℚ) (hs : sqrtA 0 = 0) (U : Uniforms)
    (texW texH : ℚ) (c : Rgb) (gid : ℕ × ℕ)
    (hin : ¬ (u32cast U.outW ≤ gid.1 ∨ u32cast U.outH ≤ gid.2)) :
    computeMain sqrtA U texW texH (fun _ => c) gid =
      ⟨[sampleCoord U texW texH gid (-1) (-1), sampleCoord U texW texH gid 0 (-1),
        sampleCoord U texW texH gid 1 (-1),
        sampleCoord U texW texH gid (-1) 0, sampleCoord U texW texH gid 0 0,
        sampleCoord U texW texH gid 1 0,
        sampleCoord U texW texH gid (-1) 1, sampleCoord U texW texH gid 0 1,
        sampleCoord U texW texH gid 1 1],
       some (gid.2 * u32cast U.outW + gid.1, glyphValue U (luma c) 0)⟩ := by
  unfold computeMain
  rw [if_neg hin]
  have key : ∀ x : ℚ, x + 2 * x + x - x - 2 * x - x = 0 := fun x => by ring
  simp only [key, mul_zero, zero_mul, add_zero, zero_add, hs]

/-- C9: a compute-shader invocation whose global id fails the bounds
check (`x >= u32(U.outW) || y >= u32(U.outH)`, compute.wgsl line 17)
performs no texture sample and no buffer write: the bounds check is the
first statement of `main`, before any sampling or store. -/
theorem c9_out_of_bounds_invocation_is_noop (sqrtA : ℚ → ℚ) (U : Uniforms)
    (texW texH : ℚ) (tex : ℚ × ℚ → Rgb) (gid : ℕ × ℕ)
    (h : u32cast U.outW ≤ gid.1 ∨ u32cast U.outH ≤ gid.2) :
    computeMain sqrtA U texW texH tex gid = ⟨[], none⟩ := by
  unfold computeMain
  rw [if_pos h]

/-- Witness for C9 at the concrete out-of-bounds id (7, 0) on a 4×2
grid. -/
theorem c9_out_of_bounds_invocation_is_noop_witness :
    computeMain sqrtZero scenarioU 64 48 midGray (7, 0) = ⟨[], none⟩ :=
  c9_out_of_bounds_invocation_is_noop sqrtZero scenarioU 64 48 midGray (7, 0)
    (Or.inl (by decide))

/-- C2 (amended): every value the compute stage writes to the glyph
index buffer is below 70, the ramp length hard-coded into the shader
(`69.0` at compute.wgsl lines 57-59) — independent of the active atlas,
whose actual ramp lengths are 68 (dense) and 5 (blocks). -/
theorem c2_written_values_below_70 (sqrtA : ℚ → ℚ) (U : Uniforms) (texW texH : ℚ)
    (tex : ℚ × ℚ → Rgb) (gid : ℕ × ℕ) (i v : ℕ)
    (h : (computeMain sqrtA U texW texH tex gid).write = some (i, v)) :
    v < 70 := by
  unfold computeMain at h
  split at h
  · simp at h
  · simp at h
    obtain ⟨hi, hv⟩ := h
    rw [← hv]
    exact lt_of_le_of_lt (glyphValue_le _ _ _) (by norm_num)

lemma glyphValue_white : glyphValue scenarioU (luma (1, 1, 1)) 0 = 69 := by
  norm_num [glyphValue, wgslClamp, u32cast, luma, scenarioU]
  decide

lemma glyphValue_midgray : glyphValue scenarioU (luma (1 / 2, 1 / 2, 1 / 2)) 0 = 34 := by
  norm_num [glyphValue, wgslClamp, u32cast, luma, scenarioU]
  decide

/-- Witness for C2 at a concrete in-bounds invocation that writes 69. -/
theorem c2_written_values_below_70_witness : (69 : ℕ) < 70 :=
  c2_written_values_below_70 sqrtZero scenarioU 64 48 whiteTex (2, 0) 2 69 (by
    unfold whiteTex
    rw [computeMain_const sqrtZero rfl scenarioU 64 48 (1, 1, 1) (2, 0) (by decide),
      glyphValue_white]
    decide)

/-- Counterexample for C2 as stated: on a pure-white source the shader
writes the index 69, which is outside `[0, ramp_length)` for both actual
ramps — the blocks ramp (length 5) and even the dense ramp (length 68,
not the 70 the shader assumes). -/
theorem c2_counterexample_blocks_ramp :
    (computeMain sqrtZero scenarioU 64 48 whiteTex (0, 0)).write = some (0, 69)
    ∧ ¬ (69 < RAMP_BLOCKS.length) ∧ ¬ (69 < RAMP_DENSE.length) := by
  refine ⟨?_, by decide, by decide⟩
  unfold whiteTex
  rw [computeMain_const sqrtZero rfl scenarioU 64 48 (1, 1, 1) (0, 0) (by decide),
    glyphValue_white]
  decide

/-- C1 (amended): for every center luminance in `[0, 1]` the value the
shader stores is the TRUNCATED clamp
`⌊clamp(lum * 69 + edge * edge_bias * 69, 0, 69)⌋` — WGSL `u32()`
truncates toward zero, and the ramp scale is the hard-coded constant 69,
not `ramp_length - 1` of the active ramp; in the spec's baseline
scenario (4×2 grid, contrast 1.0, edge_bias 0.0, invert false, uniform
mid-gray source) every cell nevertheless receives index 34 at offset
`y * grid_width + x`, and 34 agrees with
`round(0.5 * (ramp_length - 1))` for the dense ramp's true length 68. -/
theorem c1_truncated_index_formula :
    (∀ (U : Uniforms) (lum0 edge : ℚ), 0 ≤ lum0 → lum0 ≤ 1 →
      glyphValue U lum0 edge = specGlyphValueTrunc U.contrast U.edgeBias U.invert lum0 edge)
    ∧ (∀ (sqrtA : ℚ → ℚ) (texW texH : ℚ) (g : ℕ × ℕ), sqrtA 0 = 0 →
      g.1 < 4 → g.2 < 2 →
      (computeMain sqrtA scenarioU texW texH midGray g).write = some (g.2 * 4 + g.1, 34)) := by
  constructor
  · intro U lum0 edge h0 h1
    have hlum1 : (if U.contrast ≠ 1 then
        wgslClamp ((lum0 - 1 / 2) * U.contrast + 1 / 2) 0 1 else lum0)
        = min (max ((lum0 - 1 / 2) * U.contrast + 1 / 2) 0) 1 := by
      by_cases hc : U.contrast = 1
      · rw [if_neg (by simp [hc]), hc, show (lum0 - 1 / 2) * 1 + 1 / 2 = lum0 by ring,
          max_eq_left h0, min_eq_left h1]
      · rw [if_pos hc]; rfl
    simp only [glyphValue, specGlyphValueTrunc, hlum1]
    exact trunc_bridge _
  · intro sqrtA texW texH g hs h1 h2
    have hw : u32cast scenarioU.outW = 4 := by decide
    have hh : u32cast scenarioU.outH = 2 := by decide
    have hin : ¬ (u32cast scenarioU.outW ≤ g.1 ∨ u32cast scenarioU.outH ≤ g.2) := by
      rw [hw, hh]; omega
    have hcc := computeMain_const sqrtA hs scenarioU texW texH (1 / 2, 1 / 2, 1 / 2) g hin
    unfold midGray
    rw [hcc, glyphValue_midgray]
    simp [hw]

/-- Witness for C1 (amended) at the concrete luminance 1/2 and the
concrete scenario cell (1, 1). -/
theorem c1_truncated_index_formula_witness :
    glyphValue scenarioU (1 / 2) 0 = specGlyphValueTrunc 1 0 0 (1 / 2) 0
    ∧ (computeMain sqrtZero scenarioU 64 48 midGray (1, 1)).write = some (1 * 4 + 1, 34) :=
  ⟨c1_truncated_index_formula.1 scenarioU (1 / 2) 0 (by norm_num) (by norm_num),
   c1_truncated_index_formula.2 sqrtZero 64 48 (1, 1) rfl (by norm_num) (by norm_num)⟩

/-- Counterexample for C1 as stated: on a pure-white source (cell
luminance 1, no edge) the shader writes 69, while the spec's formula
`clamp(round(lum * (ramp_length - 1) + edge * edge_bias *
(ramp_length - 1)), 0, ramp_length - 1)` with the dense ramp's length 68
gives 67. -/
theorem c1_round_formula_counterexample :
    (computeMain sqrtZero scenarioU 64 48 whiteTex (1, 0)).write = some (1, 69)
    ∧ specGlyphValue scenarioU.contrast scenarioU.edgeBias scenarioU.invert
        RAMP_DENSE.length 1 0 = 67
    ∧ (69 : ℤ) ≠ 67 := by
  refine ⟨?_, ?_, by decide⟩
  · unfold whiteTex
    rw [computeMain_const sqrtZero rfl scenarioU 64 48 (1, 1, 1) (1, 0) (by decide),
      glyphValue_white]
    decide
  · show specGlyphValue 1 0 0 68 1 0 = 67
    norm_num [specGlyphValue, round_eq]

/-! ## Part 2: resource management (src/scripts/webgpu.ts)

GPU buffers and textures are modelled as natural-number ids allocated
from the monotone counter `nextId`; the `trace` field records, in
program order, the device calls that the verified claims talk about.
Shader modules, pipelines, samplers and texture views are created during
initialization or bind-group creation but are irrelevant to every claim,
so they are not given ids.  All modelled states are post-`initialize`
states, where every field of the class has been assigned, so the
defensive `if (!this.indexBuffer) throw` branch of `resizeIndexBuffer`
(line 162) cannot fire and is not modelled. -/

/-- The `UserSettings` class (src/scripts/webgpu.ts lines 5-12). -/
structure UserSettings where
  width : ℚ
  height : ℚ
  contrast : ℚ
  edgeBias : ℚ
  invert : ℚ
  atlas : String
  deriving Repr, DecidableEq

/-- The field initializers of `UserSettings`. -/
def defaultSettings : UserSettings := ⟨160, 90, 11 / 10, -(1 / 10), 0, "dense"⟩

/-- The resources referenced by the compute bind group
(`createComputeBindGroup`, lines 301-312): binding 1 views the camera
texture, binding 2 is the glyph index buffer (read-write), binding 3 the
uniform buffer.  Binding 0, a freshly created sampler, is elided. -/
structure ComputeBG where
  camTex : ℕ
  indexBuf : ℕ
  uniformsBuf : ℕ
  deriving Repr, DecidableEq

/-- The resources referenced by the render bind group
(`createRenderBindGroup`, lines 314-325): binding 0 is the glyph index
buffer (read-only), binding 1 views the atlas texture, binding 3 the
uniform buffer.  Binding 2, a freshly created sampler, is elided. -/
structure RenderBG where
  indexBuf : ℕ
  atlasTex : ℕ
  uniformsBuf : ℕ
  deriving Repr, DecidableEq

/-- Device calls recorded in the trace. -/
inductive GpuEvent where
  | allocBuffer (id : ℕ) (size : ℚ)
  | allocTexture (id : ℕ) (w h : ℚ)
  | copyToTexture (tex : ℕ) (srcW srcH extW extH : ℚ)
  | writeUniformBuffer (id : ℕ) (data : List ℚ)
  | installComputeBG (bg : ComputeBG)
  | installRenderBG (bg : RenderBG)
  | destroyBuffer (id : ℕ)
  deriving Repr, DecidableEq

/-- A decoded image (`ImageBitmap`): its pixel dimensions. -/
structure Bitmap where
  width : ℚ
  height : ℚ
  deriving Repr, DecidableEq

/-- The browser environment: `fetch`/`createImageBitmap` results per
asset path, and the canvas dimensions. -/
structure Env where
  fetchImage : String → Option Bitmap
  canvasW : ℚ
  canvasH : ℚ

/-- The mutable state of the `WebGPUApp` class: its fields, plus the
allocation counter, the set of destroyed buffer ids and the device-call
trace. -/
structure AppState where
  settings : UserSettings
  atlasTex : ℕ
  atlasW : ℚ
  atlasH : ℚ
  camTex : ℕ
  uniforms : ℕ
  cols : ℕ
  rows : ℕ
  cellPx : ℕ
  indexBuffer : ℕ
  computeBG : ComputeBG
  renderBG : RenderBG
  nextId : ℕ
  destroyed : List ℕ
  trace : List GpuEvent
  deriving Repr, DecidableEq

/-- The `Float32Array` built by `updateUniforms` (lines 385-392):
width, height, edgeBias, contrast, invert, cols, rows, cellPx, and the
atlas texture's dimensions. -/
def uniformData (s : AppState) : List ℚ :=
  [s.settings.width, s.settings.height, s.settings.edgeBias, s.settings.contrast,
   s.settings.invert, (s.cols : ℚ), (s.rows : ℚ), (s.cellPx : ℚ), s.atlasW, s.atlasH]

/-- `createIndexBuffer` (lines 152-159): allocates a storage buffer of
`width * height * 4` bytes and returns it. -/
def createIndexBuffer (s : AppState) : ℕ × AppState :=
  (s.nextId,
   { s with nextId := s.nextId + 1,
            trace := s.trace ++
              [.allocBuffer s.nextId (s.settings.width * s.settings.height * 4)] })

/-- `createComputeBindGroup` (lines 301-312): references the current
camera texture, index buffer and uniform buffer. -/
def createComputeBindGroup (s : AppState) : ComputeBG :=
  ⟨s.camTex, s.indexBuffer, s.uniforms⟩

/-- `createRenderBindGroup` (lines 314-325): references the current
index buffer, atlas texture and uniform buffer. -/
def createRenderBindGroup (s : AppState) : RenderBG :=
  ⟨s.indexBuffer, s.atlasTex, s.uniforms⟩

/-- `recreateBindGroups` (lines 327-335): installs a fresh compute bind
group, then a fresh render bind group. -/
def recreateBindGroups (s : AppState) : AppState :=
  let c := createComputeBindGroup s
  let s1 := { s with computeBG := c, trace := s.trace ++ [.installComputeBG c] }
  let r := createRenderBindGroup s1
  { s1 with renderBG := r, trace := s1.trace ++ [.installRenderBG r] }

/-- `resizeIndexBuffer` (lines 161-173): remembers the old buffer,
allocates the new one, rebuilds both bind groups against it, and only
then destroys the old buffer. -/
def resizeIndexBuffer (s : AppState) : AppState :=
  let old := s.indexBuffer
  let p := createIndexBuffer s
  let s2 := { p.2 with indexBuffer := p.1 }
  let s3 := recreateBindGroups s2
  { s3 with destroyed := s3.destroyed ++ [old], trace := s3.trace ++ [.destroyBuffer old] }

/-- `updateUniforms` (lines 384-396): rewrites the uniform buffer from
the current settings and atlas geometry, then unconditionally resizes
the index buffer. -/
def updateUniforms (s : AppState) : AppState :=
  resizeIndexBuffer
    { s with trace := s.trace ++ [.writeUniformBuffer s.uniforms (uniformData s)] }

/-- `loadAtlasBitmap` (lines 182-197): 16 columns, 32-pixel cells, the
asset path and row count chosen by the atlas type
(`rows = Math.ceil(ramp.length / cols)`); fetch failure is an error. -/
def loadAtlasBitmap (env : Env) (atlasType : String) :
    Except String (Bitmap × ℕ × ℕ × ℕ) :=
  match env.fetchImage
      (if atlasType = "blocks" then "assets/blocks_atlas.png" else "assets/dense_atlas.png") with
  | none => .error ("Failed to load " ++ atlasType ++ " atlas")
  | some bm =>
    .ok (bm, 16,
      if atlasType = "blocks" then (RAMP_BLOCKS.length + 16 - 1) / 16
      else (RAMP_DENSE.length + 16 - 1) / 16, 32)

/-- `switchAtlas` (lines 398-408): loads the new bitmap, copies it into
the EXISTING atlas texture using the existing texture's dimensions
(`[this.atlasTex.width, this.atlasTex.height]`, line 403), publishes the
new cols/rows, and calls `updateUniforms`. -/
def switchAtlas (env : Env) (s : AppState) (atlasType : String) : Except String AppState :=
  match loadAtlasBitmap env atlasType with
  | .error e => .error e
  | .ok (bm, cols, rows, _) =>
    .ok (updateUniforms
      { s with trace := s.trace ++ [.copyToTexture s.atlasTex bm.width bm.height s.atlasW s.atlasH],
               cols := cols, rows := rows })

/-- `initialize` (lines 121-150): default settings, then atlas texture
(id 0), camera texture (id 1), uniform buffer (id 2, 40 bytes, written
once), index buffer (id 3), then the two bind groups.  Pipeline and
shader-module creation carry no state the claims mention and are
elided. -/
def initApp (env : Env) : Except String AppState :=
  match loadAtlasBitmap env defaultSettings.atlas with
  | .error e => .error e
  | .ok (bm, cols, rows, cellPx) =>
    .ok { settings := defaultSettings
          atlasTex := 0
          atlasW := bm.width
          atlasH := bm.height
          camTex := 1
          uniforms := 2
          cols := cols
          rows := rows
          cellPx := cellPx
          indexBuffer := 3
          computeBG := ⟨1, 3, 2⟩
          renderBG := ⟨3, 0, 2⟩
          nextId := 4
          destroyed := []
          trace := [.allocTexture 0 bm.width bm.height,
                    .copyToTexture 0 bm.width bm.height bm.width bm.height,
                    .allocTexture 1 env.canvasW env.canvasH,
                    .allocBuffer 2 40,
                    .writeUniformBuffer 2
                      [defaultSettings.width, defaultSettings.height, defaultSettings.edgeBias,
                       defaultSettings.contrast, defaultSettings.invert, (cols : ℚ), (rows : ℚ),
                       (cellPx : ℚ), bm.width, bm.height],
                    .allocBuffer 3 (defaultSettings.width * defaultSettings.height * 4),
                    .installComputeBG ⟨1, 3, 2⟩,
                    .installRenderBG ⟨3, 0, 2⟩] }

/-- States of the app reachable from initialization by the public
operations: caller-side mutation of `settings`, `updateUniforms`, and
`switchAtlas`. -/
inductive Reachable (env : Env) : AppState → Prop
  | init (s : AppState) : initApp env = .ok s → Reachable env s
  | setSettings (s : AppState) (ns : UserSettings) :
      Reachable env s → Reachable env { s with settings := ns }
  | update (s : AppState) : Reachable env s → Reachable env (updateUniforms s)
  | switch (s s' : AppState) (t : String) :
      Reachable env s → switchAtlas env s t = .ok s' → Reachable env s'

/-- The maintained well-formedness invariant: both bind groups reference
exactly the live camera/atlas textures, the live index buffer and the
uniform buffer; ids are below the allocation counter; and neither the
live index buffer nor the uniform buffer has been destroyed. -/
def Inv (s : AppState) : Prop :=
  s.computeBG = ⟨s.camTex, s.indexBuffer, s.uniforms⟩ ∧
  s.renderBG = ⟨s.indexBuffer, s.atlasTex, s.uniforms⟩ ∧
  s.indexBuffer < s.nextId ∧
  s.uniforms < s.nextId ∧
  s.uniforms ≠ s.indexBuffer ∧
  (∀ d ∈ s.destroyed, d < s.nextId) ∧
  s.indexBuffer ∉ s.destroyed ∧
  s.uniforms ∉ s.destroyed

lemma inv_updateUniforms (s : AppState) (h : Inv s) : Inv (updateUniforms s) := by
  obtain ⟨h1, h2, h3, h4, h5, h6, h7, h8⟩ := h
  unfold updateUniforms resizeIndexBuffer createIndexBuffer recreateBindGroups
    createComputeBindGroup createRenderBindGroup
  refine ⟨rfl, rfl, by simp, by simpa using Nat.lt_succ_of_lt h4, ?_, ?_, ?_, ?_⟩
  · simp only []
    omega
  · intro d hd
    simp only [List.mem_append, List.mem_singleton] at hd
    rcases hd with hd | hd
    · exact Nat.lt_succ_of_lt (h6 d hd)
    · subst hd; exact Nat.lt_succ_of_lt h3
  · simp only [List.mem_append, List.mem_singleton]
    rintro (hd | hd)
    · exact absurd (h6 _ hd) (by omega)
    · omega
  · simp only [List.mem_append, List.mem_singleton]
    rintro (hd | hd)
    · exact h8 hd
    · exact absurd hd h5

lemma inv_switchAtlas (env : Env) (s s' : AppState) (t : String) (h : Inv s)
    (hsw : switchAtlas env s t = .ok s') : Inv s' := by
  unfold switchAtlas at hsw
  rcases hld : loadAtlasBitmap env t with e | ok
  · rw [hld] at hsw; exact absurd hsw (by simp)
  · rw [hld] at hsw
    obtain ⟨bm, cols, rows, cpx⟩ := ok
    simp only [Except.ok.injEq] at hsw
    subst hsw
    apply inv_updateUniforms
    obtain ⟨h1, h2, h3, h4, h5, h6, h7, h8⟩ := h
    exact ⟨h1, h2, h3, h4, h5, h6, h7, h8⟩

lemma inv_initApp (env : Env) (s : AppState) (h : initApp env = .ok s) : Inv s := by
  unfold initApp at h
  rcases hld : loadAtlasBitmap env defaultSettings.atlas with e | ok
  · rw [hld] at h; exact absurd h (by simp)
  · rw [hld] at h
    obtain ⟨bm, cols, rows, cpx⟩ := ok
    simp only [Except.ok.injEq] at h
    subst h
    refine ⟨rfl, rfl, by norm_num, by norm_num, by norm_num, by simp, by simp, by simp⟩

lemma reachable_inv (env : Env) (s : AppState) (h : Reachable env s) : Inv s := by
  induction h with
  | init s hs => exact inv_initApp env s hs
  | setSettings s ns _ ih =>
    obtain ⟨h1, h2, h3, h4, h5, h6, h7, h8⟩ := ih
    exact ⟨h1, h2, h3, h4, h5, h6, h7, h8⟩
  | update s _ ih => exact inv_updateUniforms s ih
  | switch s s' t _ hsw ih => exact inv_switchAtlas env s s' t ih hsw

/-- JS string indexing `str[i]` as used at line 104, combined with
`Array.prototype.join`, which renders an out-of-range (undefined)
element as the empty string. -/
def jsCharAt (str : String) (i : ℕ) : String :=
  match str.data.get? i with
  | some c => String.singleton c
  | none => ""

/-- The body of `dumpCurrentASCII` (lines 102-115) generalized over the
ramp string: map every read-back index to its ramp character, then emit
`rows` newline-separated rows of `cols` characters
(`chars.slice(r * cols, r * cols + cols).join('')`). -/
def asciiGrid (ramp : String) (cols rows : ℕ) (indices : List ℕ) : String :=
  let chars := indices.map (fun i => jsCharAt ramp i)
  String.intercalate "\n"
    ((List.range rows).map (fun r => String.join ((chars.drop (r * cols)).take cols)))

/-- `dumpCurrentASCII` (lines 102-115): maps the indices through
`RAMP_DENSE` — unconditionally, whatever atlas is active (line 104) —
with `cols = settings.width` and `rows = settings.height` (integral
settings values are passed through unchanged by the floor). -/
def dumpCurrentASCII (s : AppState) (indices : List ℕ) : String :=
  asciiGrid RAMP_DENSE (Int.toNat ⌊s.settings.width⌋) (Int.toNat ⌊s.settings.height⌋) indices

/-- The ramp belonging to an atlas type, as selected by
`loadAtlasBitmap`. -/
def rampLength (t : String) : ℕ :=
  if t = "blocks" then RAMP_BLOCKS.length else RAMP_DENSE.length

/-- Number of texture allocations recorded in a trace. -/
def numTextureAllocs (tr : List GpuEvent) : ℕ :=
  (tr.filter fun e => match e with | .allocTexture _ _ _ => true | _ => false).length

/-- A concrete browser environment for witnesses: the dense atlas
decodes to a 512×160 bitmap (16×5 tiles of 32 px), the blocks atlas to
512×32 (16×1 tiles of 32 px). -/
def demoEnv : Env :=
  ⟨fun p => if p = "assets/blocks_atlas.png" then some ⟨512, 32⟩ else some ⟨512, 160⟩,
   640, 480⟩

/-- Fallback state for total extraction from `Except`; never reached on
the concrete runs below. -/
def dummyState : AppState :=
  ⟨defaultSettings, 0, 0, 0, 0, 0, 0, 0, 0, 0, ⟨0, 0, 0⟩, ⟨0, 0, 0⟩, 0, [], []⟩

/-- The state produced by initializing against `demoEnv`. -/
def demoInit : AppState := ((initApp demoEnv).toOption).getD dummyState

lemma demoInit_ok : initApp demoEnv = .ok demoInit := rfl

/-- C3: in every reachable state, the buffer at binding 2 of the compute
bind group and the buffer at binding 0 of the render bind group are the
same object — the currently stored glyph index buffer — so within any
frame the render stage reads exactly what the compute stage wrote. -/
theorem c3_stages_share_index_buffer (env : Env) (s : AppState) (h : Reachable env s) :
    s.computeBG.indexBuf = s.indexBuffer ∧ s.renderBG.indexBuf = s.indexBuffer := by
  obtain ⟨h1, h2, _⟩ := reachable_inv env s h
  rw [h1, h2]
  exact ⟨rfl, rfl⟩

/-- Witness for C3 at the concrete initialized state. -/
theorem c3_stages_share_index_buffer_witness :
    demoInit.computeBG.indexBuf = demoInit.indexBuffer
    ∧ demoInit.renderBG.indexBuf = demoInit.indexBuffer :=
  c3_stages_share_index_buffer demoEnv demoInit (.init demoInit demoInit_ok)

/-- C10: after every completed reconfiguration, the installed compute
and render bind groups both reference the currently stored glyph index
buffer and the uniform buffer, and no installed bind group references a
destroyed buffer. -/
theorem c10_bind_groups_reference_live_buffers (env : Env) (s : AppState)
    (h : Reachable env s) :
    s.computeBG.indexBuf = s.indexBuffer ∧ s.renderBG.indexBuf = s.indexBuffer
    ∧ s.computeBG.uniformsBuf = s.uniforms ∧ s.renderBG.uniformsBuf = s.uniforms
    ∧ s.computeBG.indexBuf ∉ s.destroyed ∧ s.renderBG.indexBuf ∉ s.destroyed
    ∧ s.computeBG.uniformsBuf ∉ s.destroyed ∧ s.renderBG.uniformsBuf ∉ s.destroyed := by
  obtain ⟨h1, h2, h3, h4, h5, h6, h7, h8⟩ := reachable_inv env s h
  rw [h1, h2]
  exact ⟨rfl, rfl, rfl, rfl, h7, h7, h8, h8⟩

/-- Witness for C10 at the state reached by one `updateUniforms` after
initialization. -/
theorem c10_bind_groups_reference_live_buffers_witness :
    (updateUniforms demoInit).computeBG.indexBuf = (updateUniforms demoInit).indexBuffer
    ∧ (updateUniforms demoInit).renderBG.indexBuf = (updateUniforms demoInit).indexBuffer
    ∧ (updateUniforms demoInit).computeBG.uniformsBuf = (updateUniforms demoInit).uniforms
    ∧ (updateUniforms demoInit).renderBG.uniformsBuf = (updateUniforms demoInit).uniforms
    ∧ (updateUniforms demoInit).computeBG.indexBuf ∉ (updateUniforms demoInit).destroyed
    ∧ (updateUniforms demoInit).renderBG.indexBuf ∉ (updateUniforms demoInit).destroyed
    ∧ (updateUniforms demoInit).computeBG.uniformsBuf ∉ (updateUniforms demoInit).destroyed
    ∧ (updateUniforms demoInit).renderBG.uniformsBuf ∉ (updateUniforms demoInit).destroyed :=
  c10_bind_groups_reference_live_buffers demoEnv (updateUniforms demoInit)
    (.update demoInit (.init demoInit demoInit_ok))

/-- C4: every `updateUniforms` call — in particular every grid-size
change — reconfigures in the order: write the uniform buffer, allocate
the new index buffer, install a new compute bind group and then a new
render bind group that reference the new buffer, and only after both are
installed destroy the old buffer; the old and new buffers are distinct
objects, and neither installed bind group references the destroyed
one. -/
theorem c4_resize_allocates_rebinds_then_destroys (s : AppState)
    (h : s.indexBuffer < s.nextId) :
    (updateUniforms s).trace = s.trace ++
      [.writeUniformBuffer s.uniforms (uniformData s),
       .allocBuffer s.nextId (s.settings.width * s.settings.height * 4),
       .installComputeBG ⟨s.camTex, s.nextId, s.uniforms⟩,
       .installRenderBG ⟨s.nextId, s.atlasTex, s.uniforms⟩,
       .destroyBuffer s.indexBuffer]
    ∧ (updateUniforms s).indexBuffer = s.nextId
    ∧ (updateUniforms s).computeBG.indexBuf = s.nextId
    ∧ (updateUniforms s).renderBG.indexBuf = s.nextId
    ∧ s.indexBuffer ≠ s.nextId := by
  refine ⟨?_, rfl, rfl, rfl, Nat.ne_of_lt h⟩
  simp [updateUniforms, resizeIndexBuffer, recreateBindGroups, createIndexBuffer,
    createComputeBindGroup, createRenderBindGroup]

/-- Witness for C4 at the concrete initialized state. -/
theorem c4_resize_allocates_rebinds_then_destroys_witness :
    (updateUniforms demoInit).trace = demoInit.trace ++
      [.writeUniformBuffer demoInit.uniforms (uniformData demoInit),
       .allocBuffer demoInit.nextId
         (demoInit.settings.width * demoInit.settings.height * 4),
       .installComputeBG ⟨demoInit.camTex, demoInit.nextId, demoInit.uniforms⟩,
       .installRenderBG ⟨demoInit.nextId, demoInit.atlasTex, demoInit.uniforms⟩,
       .destroyBuffer demoInit.indexBuffer]
    ∧ (updateUniforms demoInit).indexBuffer = demoInit.nextId
    ∧ (updateUniforms demoInit).computeBG.indexBuf = demoInit.nextId
    ∧ (updateUniforms demoInit).renderBG.indexBuf = demoInit.nextId
    ∧ demoInit.indexBuffer ≠ demoInit.nextId :=
  c4_resize_allocates_rebinds_then_destroys demoInit (by decide)

/-- A reachable state whose settings carry a zero grid width, as a
caller can produce before calling `updateUniforms`. -/
def zeroWidthState : AppState :=
  { demoInit with settings := { demoInit.settings with width := 0 } }

/-- C5 (amended): `updateUniforms` performs no validation — an update
whose grid dimensions are zero or negative proceeds exactly like any
other: the uniform buffer is rewritten with the invalid dimensions, a
new index buffer of size `width * height * 4` is allocated, both bind
groups are rebuilt, and the previous index buffer is destroyed; the
previous configuration does not remain active. -/
theorem c5_invalid_dimensions_not_validated (s : AppState)
    (hinv : s.settings.width ≤ 0 ∨ s.settings.height ≤ 0)
    (h : s.indexBuffer < s.nextId) :
    (updateUniforms s).trace = s.trace ++
      [.writeUniformBuffer s.uniforms (uniformData s),
       .allocBuffer s.nextId (s.settings.width * s.settings.height * 4),
       .installComputeBG ⟨s.camTex, s.nextId, s.uniforms⟩,
       .installRenderBG ⟨s.nextId, s.atlasTex, s.uniforms⟩,
       .destroyBuffer s.indexBuffer]
    ∧ (updateUniforms s).indexBuffer ≠ s.indexBuffer
    ∧ s.indexBuffer ∈ (updateUniforms s).destroyed := by
  refine ⟨?_, ?_, ?_⟩
  · simp [updateUniforms, resizeIndexBuffer, recreateBindGroups, createIndexBuffer,
      createComputeBindGroup, createRenderBindGroup]
  · show s.nextId ≠ s.indexBuffer
    omega
  · show s.indexBuffer ∈ s.destroyed ++ [s.indexBuffer]
    simp

/-- Witness for C5 (amended) at the concrete zero-width state. -/
theorem c5_invalid_dimensions_not_validated_witness :
    (updateUniforms zeroWidthState).trace = zeroWidthState.trace ++
      [.writeUniformBuffer zeroWidthState.uniforms (uniformData zeroWidthState),
       .allocBuffer zeroWidthState.nextId
         (zeroWidthState.settings.width * zeroWidthState.settings.height * 4),
       .installComputeBG
         ⟨zeroWidthState.camTex, zeroWidthState.nextId, zeroWidthState.uniforms⟩,
       .installRenderBG
         ⟨zeroWidthState.nextId, zeroWidthState.atlasTex, zeroWidthState.uniforms⟩,
       .destroyBuffer zeroWidthState.indexBuffer]
    ∧ (updateUniforms zeroWidthState).indexBuffer ≠ zeroWidthState.indexBuffer
    ∧ zeroWidthState.indexBuffer ∈ (updateUniforms zeroWidthState).destroyed :=
  c5_invalid_dimensions_not_validated zeroWidthState (Or.inl (by norm_num [zeroWidthState]))
    (by decide)

/-- Counterexample for C5 as stated: a zero-width settings update is NOT
rejected — a buffer allocation happens (the `allocBuffer` event below),
the uniform contents are overwritten with the invalid width, and the
previously active index buffer is replaced and destroyed. -/
theorem c5_counterexample_zero_width_allocates :
    zeroWidthState.settings.width = 0
    ∧ .allocBuffer zeroWidthState.nextId
        (zeroWidthState.settings.width * zeroWidthState.settings.height * 4)
        ∈ (updateUniforms zeroWidthState).trace
    ∧ .writeUniformBuffer zeroWidthState.uniforms (uniformData zeroWidthState)
        ∈ (updateUniforms zeroWidthState).trace
    ∧ (updateUniforms zeroWidthState).indexBuffer ≠ zeroWidthState.indexBuffer
    ∧ zeroWidthState.indexBuffer ∈ (updateUniforms zeroWidthState).destroyed := by
  refine ⟨rfl, ?_, ?_, by decide, ?_⟩
  · simp [updateUniforms, resizeIndexBuffer, recreateBindGroups, createIndexBuffer,
      createComputeBindGroup, createRenderBindGroup]
  · simp [updateUniforms, resizeIndexBuffer, recreateBindGroups, createIndexBuffer,
      createComputeBindGroup, createRenderBindGroup]
  · show zeroWidthState.indexBuffer ∈ zeroWidthState.destroyed ++ [zeroWidthState.indexBuffer]
    simp

/-- The state after one `updateUniforms` on the initialized state; its
grid dimensions are identical to `demoInit`'s. -/
def demoOnce : AppState := updateUniforms demoInit

/-- C6 (amended): every `updateUniforms` call — including one whose grid
dimensions are identical to the current ones — rewrites the uniform
buffer AND reallocates the glyph index buffer and rebuilds both bind
groups; there is no size-unchanged fast path, so repeated updates are
not idempotent with respect to GPU resources (each call consumes a fresh
buffer id and destroys the previous buffer). -/
theorem c6_every_update_reallocates (s : AppState) (h : s.indexBuffer < s.nextId) :
    (updateUniforms s).settings = s.settings
    ∧ (updateUniforms s).indexBuffer = s.nextId
    ∧ s.indexBuffer ≠ s.nextId
    ∧ .writeUniformBuffer s.uniforms (uniformData s) ∈ (updateUniforms s).trace
    ∧ .allocBuffer s.nextId (s.settings.width * s.settings.height * 4)
        ∈ (updateUniforms s).trace
    ∧ .installComputeBG ⟨s.camTex, s.nextId, s.uniforms⟩ ∈ (updateUniforms s).trace
    ∧ .installRenderBG ⟨s.nextId, s.atlasTex, s.uniforms⟩ ∈ (updateUniforms s).trace
    ∧ .destroyBuffer s.indexBuffer ∈ (updateUniforms s).trace := by
  refine ⟨rfl, rfl, Nat.ne_of_lt h, ?_, ?_, ?_, ?_, ?_⟩ <;>
    simp [updateUniforms, resizeIndexBuffer, recreateBindGroups, createIndexBuffer,
      createComputeBindGroup, createRenderBindGroup]

/-- Witness for C6 (amended): the second `updateUniforms` call after
initialization, whose dimensions are identical to the first's, still
allocates a fresh buffer. -/
theorem c6_every_update_reallocates_witness :
    (updateUniforms demoOnce).settings = demoOnce.settings
    ∧ (updateUniforms demoOnce).indexBuffer = demoOnce.nextId
    ∧ demoOnce.indexBuffer ≠ demoOnce.nextId
    ∧ .writeUniformBuffer demoOnce.uniforms (uniformData demoOnce) ∈ (updateUniforms demoOnce).trace
    ∧ .allocBuffer demoOnce.nextId
        (demoOnce.settings.width * demoOnce.settings.height * 4) ∈ (updateUniforms demoOnce).trace
    ∧ .installComputeBG ⟨demoOnce.camTex, demoOnce.nextId, demoOnce.uniforms⟩
        ∈ (updateUniforms demoOnce).trace
    ∧ .installRenderBG ⟨demoOnce.nextId, demoOnce.atlasTex, demoOnce.uniforms⟩
        ∈ (updateUniforms demoOnce).trace
    ∧ .destroyBuffer demoOnce.indexBuffer ∈ (updateUniforms demoOnce).trace :=
  c6_every_update_reallocates demoOnce (by decide)

/-- Counterexample for C6 as stated: the settings of the second call are
identical to the first's, yet the second call reallocates the index
buffer (a fresh id) and records a buffer allocation and both bind-group
installs — not a parameter-only rewrite. -/
theorem c6_counterexample_identical_dims_reallocate :
    demoOnce.settings = demoInit.settings
    ∧ (updateUniforms demoOnce).indexBuffer ≠ demoOnce.indexBuffer
    ∧ .allocBuffer demoOnce.nextId
        (demoOnce.settings.width * demoOnce.settings.height * 4) ∈ (updateUniforms demoOnce).trace
    ∧ .installComputeBG ⟨demoOnce.camTex, demoOnce.nextId, demoOnce.uniforms⟩
        ∈ (updateUniforms demoOnce).trace
    ∧ demoOnce.indexBuffer ∈ (updateUniforms demoOnce).destroyed := by
  refine ⟨rfl, by decide, ?_, ?_, ?_⟩
  · simp [updateUniforms, resizeIndexBuffer, recreateBindGroups, createIndexBuffer,
      createComputeBindGroup, createRenderBindGroup]
  · simp [updateUniforms, resizeIndexBuffer, recreateBindGroups, createIndexBuffer,
      createComputeBindGroup, createRenderBindGroup]
  · show demoOnce.indexBuffer ∈ demoOnce.destroyed ++ [demoOnce.indexBuffer]
    simp

/-- The state produced by switching `demoInit` to the blocks atlas. -/
def demoBlocks : AppState :=
  match switchAtlas demoEnv demoInit "blocks" with
  | .ok s => s
  | .error _ => dummyState

lemma demoBlocks_ok : switchAtlas demoEnv demoInit "blocks" = .ok demoBlocks := rfl

/-- C7 (amended): after every successful `switchAtlas`, the published
geometry satisfies `cols = 16` and `rows = ceil(new_ramp_length / cols)`
for the new atlas's ramp; but a subsequent `dumpCurrentASCII` maps the
stored indices through `RAMP_DENSE`, the dense ramp, regardless of which
atlas was switched to. -/
theorem c7_switch_updates_rows_but_dump_uses_dense_ramp (env : Env) (s s' : AppState)
    (t : String) (h : switchAtlas env s t = .ok s') :
    s'.cols = 16
    ∧ (s'.rows : ℤ) = ⌈(rampLength t : ℚ) / 16⌉
    ∧ ∀ indices, dumpCurrentASCII s' indices =
        asciiGrid RAMP_DENSE (Int.toNat ⌊s'.settings.width⌋)
          (Int.toNat ⌊s'.settings.height⌋) indices := by
  unfold switchAtlas at h
  rcases hld : loadAtlasBitmap env t with e | ok
  · rw [hld] at h
    exact absurd h (by simp)
  · rw [hld] at h
    obtain ⟨bm, cols, rows, cpx⟩ := ok
    simp only [Except.ok.injEq] at h
    subst h
    unfold loadAtlasBitmap at hld
    split at hld
    · exact absurd hld (by simp)
    · simp only [Except.ok.injEq, Prod.mk.injEq] at hld
      obtain ⟨hbm, hcols, hrows, hcpx⟩ := hld
      refine ⟨hcols.symm, ?_, fun indices => rfl⟩
      show ((rows : ℕ) : ℤ) = ⌈(rampLength t : ℚ) / 16⌉
      rw [← hrows]
      unfold rampLength
      by_cases ht : t = "blocks"
      · rw [if_pos ht, if_pos ht, show RAMP_BLOCKS.length = 5 from rfl]
        norm_num
        symm
        rw [Int.ceil_eq_iff]
        norm_num
      · rw [if_neg ht, if_neg ht, show RAMP_DENSE.length = 68 from rfl]
        norm_num
        symm
        rw [Int.ceil_eq_iff]
        norm_num

/-- Witness for C7 (amended) at the concrete switch of the initialized
state to the blocks atlas, with dump evaluated at the one-element index
list `[1]`. -/
theorem c7_switch_updates_rows_but_dump_uses_dense_ramp_witness :
    demoBlocks.cols = 16
    ∧ (demoBlocks.rows : ℤ) = ⌈(rampLength "blocks" : ℚ) / 16⌉
    ∧ dumpCurrentASCII demoBlocks [1] =
        asciiGrid RAMP_DENSE (Int.toNat ⌊demoBlocks.settings.width⌋)
          (Int.toNat ⌊demoBlocks.settings.height⌋) [1] :=
  have h := c7_switch_updates_rows_but_dump_uses_dense_ramp demoEnv demoInit demoBlocks
    "blocks" demoBlocks_ok
  ⟨h.1, h.2.1, h.2.2 [1]⟩

/-- A reachable-shaped state with a 1×1 grid whose caller has already
set `settings.atlas` to blocks, before calling `switchAtlas`. -/
def oneByOneState : AppState :=
  { demoInit with settings :=
      { demoInit.settings with width := 1, height := 1, atlas := "blocks" } }

/-- The state produced by switching `oneByOneState` to the blocks
atlas. -/
def blocksSmall : AppState :=
  match switchAtlas demoEnv oneByOneState "blocks" with
  | .ok s => s
  | .error _ => dummyState

/-- Counterexample for C7 as stated: after switching to the blocks atlas
(ramp `" ░▒▓█"`), dumping a grid whose single stored index is 1 yields
"." — `RAMP_DENSE[1]`, the OLD dense ramp's character — not the new
ramp's character "░". -/
theorem c7_counterexample_dump_ignores_new_ramp :
    switchAtlas demoEnv oneByOneState "blocks" = .ok blocksSmall
    ∧ blocksSmall.cols = 16
    ∧ blocksSmall.rows = 1
    ∧ dumpCurrentASCII blocksSmall [1] = "."
    ∧ jsCharAt RAMP_BLOCKS 1 = "░"
    ∧ ("." : String) ≠ "░" := by
  refine ⟨rfl, by decide, by decide, by decide, by decide, by decide⟩

/-- C8 (amended): `switchAtlas` never allocates a new atlas texture — it
always copies the freshly decoded bitmap into the EXISTING atlas texture
using the existing texture's dimensions (line 403), even when the
bitmap's dimensions differ from the texture's. -/
theorem c8_atlas_swap_reuses_old_texture (env : Env) (s s' : AppState) (t : String)
    (bm : Bitmap) (cols rows cpx : ℕ)
    (h : loadAtlasBitmap env t = .ok (bm, cols, rows, cpx))
    (hsw : switchAtlas env s t = .ok s') :
    s'.atlasTex = s.atlasTex
    ∧ s'.atlasW = s.atlasW ∧ s'.atlasH = s.atlasH
    ∧ .copyToTexture s.atlasTex bm.width bm.height s.atlasW s.atlasH ∈ s'.trace
    ∧ numTextureAllocs s'.trace = numTextureAllocs s.trace := by
  unfold switchAtlas at hsw
  rw [h] at hsw
  simp only [Except.ok.injEq] at hsw
  subst hsw
  refine ⟨rfl, rfl, rfl, ?_, ?_⟩
  · simp [updateUniforms, resizeIndexBuffer, recreateBindGroups, createIndexBuffer,
      createComputeBindGroup, createRenderBindGroup]
  · simp [numTextureAllocs, updateUniforms, resizeIndexBuffer, recreateBindGroups,
      createIndexBuffer, createComputeBindGroup, createRenderBindGroup]

/-- Witness for C8 (amended) at the concrete blocks switch. -/
theorem c8_atlas_swap_reuses_old_texture_witness :
    demoBlocks.atlasTex = demoInit.atlasTex
    ∧ demoBlocks.atlasW = demoInit.atlasW ∧ demoBlocks.atlasH = demoInit.atlasH
    ∧ .copyToTexture demoInit.atlasTex (Bitmap.mk 512 32).width (Bitmap.mk 512 32).height
        demoInit.atlasW demoInit.atlasH ∈ demoBlocks.trace
    ∧ numTextureAllocs demoBlocks.trace = numTextureAllocs demoInit.trace :=
  c8_atlas_swap_reuses_old_texture demoEnv demoInit demoBlocks "blocks" ⟨512, 32⟩ 16 1 32
    rfl demoBlocks_ok

/-- Counterexample for C8 as stated: the blocks bitmap decodes to
512×32 while the live atlas texture is 512×160 — the dimensions differ —
yet `switchAtlas` allocates no texture at all and copies the new bitmap
into the old texture with the old texture's 512×160 extent. -/
theorem c8_counterexample_copy_with_stale_extent :
    switchAtlas demoEnv demoInit "blocks" = .ok demoBlocks
    ∧ demoEnv.fetchImage "assets/blocks_atlas.png" = some ⟨512, 32⟩
    ∧ demoInit.atlasW = 512 ∧ demoInit.atlasH = 160
    ∧ (32 : ℚ) ≠ 160
    ∧ demoBlocks.atlasTex = demoInit.atlasTex
    ∧ .copyToTexture demoInit.atlasTex 512 32 512 160 ∈ demoBlocks.trace
    ∧ numTextureAllocs demoBlocks.trace = numTextureAllocs demoInit.trace := by
  refine ⟨rfl, by decide, by decide, by decide, by decide, by decide, by decide, by decide⟩

end AsciiYou
